import Mathlib

/-!
# Verification of the zoe tree-walking interpreter

Shallow embedding of the zoe interpreter (`interpreter.ts` = `src/unnamed/part_000`,
`runtime.ts`, `main.ts`) into Lean 4, together with theorems settling the frozen
claims about the interpreter's evaluator.

Modelling conventions:

* JS `bigint` is `Int`; `bigint` division and remainder truncate toward zero
  (`Int.tdiv` / `Int.tmod`), matching JS semantics.
* JS `number` (IEEE-754 double) is modelled by `JsNum`: either an exact rational
  or `nan`.  The rounding of double arithmetic is not modelled (the claims under
  verification only test negation, zero tests and modulus-by-zero on floats, for
  which the rational model is exact); `NaN` is modelled because `x % 0` produces
  it.  Negative zero is not modelled.
* `Uint8Array` buffers are byte lists stored in a heap (`State.strings`); a zoe
  String value holds the buffer's address, so buffer aliasing (shared-by-reference
  semantics) is explicit.  Reads outside a `Uint8Array`'s range give `undefined`
  in JS; writing `undefined` into a `Uint8Array` stores 0, and `BigInt(undefined)`
  throws a host `TypeError` — both are modelled explicitly.
* zoe Objects are JS plain objects used as string-keyed maps; they live in a heap
  (`State.objects`) as insertion-ordered association lists.  A JS plain object
  inherits the properties of `Object.prototype`, so a property read of an absent
  key can still produce a host object; this is modelled by `objectProtoProps` and
  the `Value.protoArtifact` constructor.  The special behaviour of a store to the
  key `__proto__` (a prototype setter in JS) is not modelled and no theorem uses
  that key.
* Scope frames live in a heap (`State.frames`) and hold an optional parent
  address, so closure capture and frame sharing are explicit.  `scope.ts` is not
  among the provided sources; its four operations are modelled from the spec
  (§4.2) and marked `Modelled from the spec:` below.
* The thrown JS `Error` diagnostics of the interpreter propagate as
  `Except`-style signals; the `Return` exception used for non-local return is a
  separate signal constructor, caught at call boundaries exactly where the source
  catches it.
* `evaluate` takes a fuel parameter so that the recursion is structural; fuel is
  an artefact of the embedding (`Err.outOfFuel` never occurs for sufficient fuel).
* `State.trace` is ghost instrumentation: `evaluate` records the node it was
  entered on.  No definition reads the trace, so it cannot influence results; it
  exists so that evaluation-order claims can be stated and refuted.
-/

/-- A JS `number` (IEEE-754 double): an exact rational or `NaN`. -/
inductive JsNum where
  | num (q : Rat)
  | nan
deriving DecidableEq

namespace JsNum

/-- JS `+` on numbers (`NaN` propagates). -/
def add : JsNum → JsNum → JsNum
  | num a, num b => num (a + b)
  | _, _ => nan

/-- JS `-` on numbers. -/
def sub : JsNum → JsNum → JsNum
  | num a, num b => num (a - b)
  | _, _ => nan

/-- JS `*` on numbers. -/
def mul : JsNum → JsNum → JsNum
  | num a, num b => num (a * b)
  | _, _ => nan

/-- JS `/` on numbers; the interpreter only divides after a zero test, and
division by `NaN` yields `NaN`. -/
def div : JsNum → JsNum → JsNum
  | num a, num b => num (a / b)
  | _, _ => nan

/-- Truncation toward zero of a rational, as an integer. -/
def truncRat (q : Rat) : Int :=
  if 0 ≤ q then q.floor else -((-q).floor)

/-- JS `%` on numbers: the IEEE remainder with the sign of the dividend;
`x % 0` is `NaN`. -/
def fmod : JsNum → JsNum → JsNum
  | num a, num b => if b = 0 then nan else num (a - b * truncRat (a / b))
  | _, _ => nan

/-- JS `<` on numbers (`false` whenever an operand is `NaN`). -/
def lt : JsNum → JsNum → Bool
  | num a, num b => decide (a < b)
  | _, _ => false

/-- JS `>` on numbers. -/
def gt (x y : JsNum) : Bool := lt y x

/-- The test `v === 0` performed by the interpreter before dividing. -/
def isZero : JsNum → Bool
  | num a => decide (a = 0)
  | nan => false

/-- JS `===` on numbers (`NaN === NaN` is `false`). -/
def strictEq : JsNum → JsNum → Bool
  | num a, num b => decide (a = b)
  | _, _ => false

/-- The negation of a JS number (what the spec means by "its negation";
the source computes it as `value *= -1`, which agrees: see `mul_negOne`). -/
def neg : JsNum → JsNum
  | num a => num (-a)
  | nan => nan

end JsNum

/-- Number of bits of a natural number, computed with a fuel bound (kernel
reducible, unlike `Nat.log2`). -/
def bitLenAux : Nat → Nat → Nat
  | 0, _ => 0
  | fuel + 1, n => if n = 0 then 0 else bitLenAux fuel (n / 2) + 1

/-- Number of binary digits of `n` (`bitLen 0 = 0`, `bitLen (2^k) = k+1`). -/
def bitLen (n : Nat) : Nat := bitLenAux n n

/-- The JS conversion `Number(v)` of a `bigint` to a double: round to nearest,
ties to even, on 53 mantissa bits; `none` models overflow to `±Infinity`.
Exact whenever `|v| ≤ 2^53`. -/
def bigIntToDouble (v : Int) : Option Int :=
  let n := v.natAbs
  if n < 2 ^ 53 then some v
  else
    let e := bitLen n - 53
    let q := n / 2 ^ e
    let r := n % 2 ^ e
    let m := if 2 * r > 2 ^ e ∨ (2 * r = 2 ^ e ∧ q % 2 = 1) then q + 1 else q
    let mag := m * 2 ^ e
    if 2 ^ 1024 ≤ mag then none
    else some (if v < 0 then -(mag : Int) else (mag : Int))

/-- The byte stored by a `Uint8Array` write of the JS number `Number(v)`
(`ToUint8`: truncate, then reduce modulo 256; `±Infinity` store 0). -/
def jsUint8OfBigInt (v : Int) : Nat :=
  match bigIntToDouble v with
  | none => 0
  | some n => (n % 256).toNat

/-- Reading index `i` (a `bigint` cast with `Number`) of a `Uint8Array`:
in-range indices yield the byte, anything else yields `undefined` (`none`). -/
def uint8Read (bs : List Nat) (i : Int) : Option Nat :=
  if 0 ≤ i then bs.get? i.toNat else none

/-- The buffer built by the String `+` case of `evalBinaryExpr`
(part_000 lines 197–208).  The source fills the second half with
`u8Array[i] = rhs.value[i]` where `i` keeps running from `lhs.length`, so the
right operand is read at the absolute index `i`, not at `i - lhs.length`;
out-of-range reads give `undefined`, which a `Uint8Array` stores as 0. -/
def strPlusBuffer (l r : List Nat) : List Nat :=
  (List.range (l.length + r.length)).map fun i =>
    if i < l.length then (l.get? i).getD 0
    else (r.get? i).getD 0

/-- The byte concatenation that the spec prescribes for String `+` String
(spec §4.5: "a new buffer that is the byte concatenation"). -/
def specConcat (l r : List Nat) : List Nat := l ++ r

mutual
/-- Expressions of the zoe AST (`ast.ts`).  String literal nodes carry the
address of their byte buffer in the string heap: the parser allocates one
buffer per literal node, and `evaluate` wraps that same buffer
(`StringValue(node.value)`), which is what makes buffer sharing observable.
Function literal nodes carry a node identity (JS compares AST nodes by
reference in `===`).  Operators are the strings the parser produces; the
evaluator's `default` branches for unknown operators are therefore reachable,
as in the source. -/
inductive Expr where
  | intLit (n : Int)
  | floatLit (q : Rat)
  | nullLit
  | boolLit (b : Bool)
  | strLit (addr : Nat)
  | ident (s : String)
  | binary (left : Expr) (op : String) (right : Expr)
  | unary (op : String) (e : Expr)
  | assign (assignee : Expr) (op : String) (value : Expr)
  | member (left : Expr) (right : Expr)
  | subscript (left : Expr) (right : Expr)
  | call (caller : Expr) (args : List Expr)
  | objectLit (props : List (String × Option Expr))
  | fnLit (nodeId : Nat) (params : List String) (body : List Stmt)

/-- Statements of the zoe AST (`ast.ts`). -/
inductive Stmt where
  | varStmt (symbol : String) (e : Expr)
  | exprStmt (e : Expr)
  | blockStmt (stmts : List Stmt)
  | ifStmt (ifs : List (Expr × List Stmt)) (dflt : Option (List Stmt))
  | returnStmt (e : Expr)
end

/-- The `Stmt | Expr` union that `evaluate` dispatches on. -/
inductive Node where
  | stmt (s : Stmt)
  | expr (e : Expr)

/-- Runtime values (`runtime.ts`).  Strings and Objects hold heap addresses
(shared by reference); a Function value holds the identity of its literal node,
the address of its captured scope frame, its parameter list and body.
`jsFnV` stands for a host (`JS_FN`) builtin; `protoArtifact k` stands for the
host object `Object.prototype[k]` that a member lookup can leak (a JS value
outside the `RuntimeValue` union). -/
inductive Value where
  | nullV
  | floatV (x : JsNum)
  | intV (n : Int)
  | boolV (b : Bool)
  | strV (addr : Nat)
  | objV (addr : Nat)
  | fnV (nodeId : Nat) (captured : Nat) (params : List String) (body : List Stmt)
  | jsFnV (fid : Nat)
  | protoArtifact (name : String)

/-- Runtime failures.  `msg` is a diagnostic thrown with `new Error` in the
interpreter; `undefinedVar`/`redeclaredVar` are the environment errors of spec
§4.2 (scope.ts is not among the sources); the `host*` constructors are
exceptions raised by the JS host rather than by interpreter code;
`outOfFuel` is an artefact of the fuel-indexed embedding. -/
inductive Err where
  | msg (s : String)
  | undefinedVar (s : String)
  | redeclaredVar (s : String)
  | hostRangeError (s : String)
  | hostTypeError (s : String)
  | hostUnmodelled
  | outOfFuel
deriving DecidableEq

/-- Non-local transfer: a thrown diagnostic, or the `Return` exception carrying
the returned value (caught only at function-call boundaries). -/
inductive Sig where
  | err (e : Err)
  | ret (v : Value)

/-- Ghost trace events: the node kinds `evaluate` is entered on, with enough
payload to identify which identifier or operator was reached. -/
inductive Ev where
  | varS (s : String)
  | exprS
  | blockS
  | ifS
  | returnS
  | intL (n : Int)
  | floatL (q : Rat)
  | nullL
  | boolL (b : Bool)
  | strL (addr : Nat)
  | identE (s : String)
  | binaryE (op : String)
  | unaryE (op : String)
  | assignE (op : String)
  | memberE
  | subscriptE
  | callE
  | objectE
  | fnE (nodeId : Nat)
deriving DecidableEq

/-- The trace label of a node. -/
def nodeEv : Node → Ev
  | .stmt (.varStmt s _) => .varS s
  | .stmt (.exprStmt _) => .exprS
  | .stmt (.blockStmt _) => .blockS
  | .stmt (.ifStmt _ _) => .ifS
  | .stmt (.returnStmt _) => .returnS
  | .expr (.intLit n) => .intL n
  | .expr (.floatLit q) => .floatL q
  | .expr .nullLit => .nullL
  | .expr (.boolLit b) => .boolL b
  | .expr (.strLit a) => .strL a
  | .expr (.ident s) => .identE s
  | .expr (.binary _ op _) => .binaryE op
  | .expr (.unary op _) => .unaryE op
  | .expr (.assign _ op _) => .assignE op
  | .expr (.member _ _) => .memberE
  | .expr (.subscript _ _) => .subscriptE
  | .expr (.call _ _) => .callE
  | .expr (.objectLit _) => .objectE
  | .expr (.fnLit i _ _) => .fnE i

/-- A scope frame (`scope.ts`, shape per spec §3): bindings in insertion order
plus an optional parent address. -/
structure Frame where
  bindings : List (String × Value)
  parent : Option Nat

/-- The machine state: the scope-frame heap, the string-buffer heap, the
object heap, and the ghost evaluation trace. -/
structure State where
  frames : List Frame
  strings : List (List Nat)
  objects : List (List (String × Value))
  trace : List Ev

namespace State

/-- Record a ghost trace event. -/
def emit (st : State) (e : Ev) : State := { st with trace := st.trace ++ [e] }

/-- Allocate a fresh scope frame (`Scope(parent)`), returning its address. -/
def allocFrame (st : State) (parent : Option Nat) : Nat × State :=
  (st.frames.length, { st with frames := st.frames ++ [⟨[], parent⟩] })

/-- Allocate a fresh string buffer, returning its address. -/
def allocString (st : State) (bs : List Nat) : Nat × State :=
  (st.strings.length, { st with strings := st.strings ++ [bs] })

/-- Allocate a fresh object, returning its address. -/
def allocObject (st : State) (props : List (String × Value)) : Nat × State :=
  (st.objects.length, { st with objects := st.objects ++ [props] })

/-- Overwrite the buffer at address `a`. -/
def setString (st : State) (a : Nat) (bs : List Nat) : State :=
  { st with strings := st.strings.set a bs }

/-- Overwrite the object at address `a`. -/
def setObject (st : State) (a : Nat) (props : List (String × Value)) : State :=
  { st with objects := st.objects.set a props }

/-- Overwrite the frame at address `a`. -/
def setFrame (st : State) (a : Nat) (f : Frame) : State :=
  { st with frames := st.frames.set a f }

/-- The `Uint8Array` store `lhs.value[Number(i)] = Number(v)` of a
subscript-assignment: in-range writes store the converted low byte,
out-of-range typed-array writes are silently ignored by JS. -/
def storeByte (st : State) (a : Nat) (i : Int) (v : Int) : State :=
  match st.strings.get? a with
  | none => st
  | some bs =>
    if 0 ≤ i ∧ i < (bs.length : Int) then
      st.setString a (bs.set i.toNat (jsUint8OfBigInt v))
    else st

end State

/-- First-match association-list lookup (a JS `Map.get`, or an own-property
read of a string-keyed object; keys are unique by construction). -/
def assocGet : List (String × Value) → String → Option Value
  | [], _ => none
  | (k', v) :: rest, k => if k' = k then some v else assocGet rest k

/-- Insert-or-update preserving insertion order (a JS `map[k] = v`). -/
def assocSet : List (String × Value) → String → Value → List (String × Value)
  | [], k, v => [(k, v)]
  | (k', v') :: rest, k, v =>
    if k' = k then (k', v) :: rest else (k', v') :: assocSet rest k v

/-- The own properties of `Object.prototype`: a property read of a JS plain
object (`{}`) falls back to these when the key is not an own property. -/
def objectProtoProps : List String :=
  ["constructor", "hasOwnProperty", "isPrototypeOf", "propertyIsEnumerable",
   "toLocaleString", "toString", "valueOf", "__defineGetter__",
   "__defineSetter__", "__lookupGetter__", "__lookupSetter__", "__proto__"]

/-- Property read `m[k]` of the JS plain object used as the Object store
(`evalObjectLiteralExpr` builds `const m = {}`): own properties first, then
the inherited `Object.prototype` properties, else `undefined` (`none`). -/
def jsObjGet (props : List (String × Value)) (k : String) : Option Value :=
  match assocGet props k with
  | some v => some v
  | none => if k ∈ objectProtoProps then some (.protoArtifact k) else none

/-- Modelled from the spec: `scope.ts` is not among the provided sources.
Spec §4.2 `lookup(name)`: walk the parent chain and return the first binding,
or fail with "undefined variable".  Primitive values are value-like (spec §3
ownership), so returning the binding is returning a copy; reference values
carry heap addresses, so aliasing is preserved.  The fuel argument bounds the
parent-chain walk (parents always have smaller addresses, so
`frames.length` suffices). -/
def lookupVarAux (frames : List Frame) (sym : String) : Nat → Nat → Except Err Value
  | 0, _ => .error (.undefinedVar sym)
  | fuel + 1, addr =>
    match frames.get? addr with
    | none => .error (.undefinedVar sym)
    | some fr =>
      match assocGet fr.bindings sym with
      | some v => .ok v
      | none =>
        match fr.parent with
        | none => .error (.undefinedVar sym)
        | some p => lookupVarAux frames sym fuel p

/-- Modelled from the spec: spec §4.2 `lookup` (see `lookupVarAux`). -/
def lookupVar (st : State) (sc : Nat) (sym : String) : Except Err Value :=
  lookupVarAux st.frames sym st.frames.length sc

/-- Modelled from the spec: spec §4.2 `declare(name, value)` — insert into the
current frame; redeclaring a name already bound in the same frame is a runtime
error. -/
def initVar (st : State) (sc : Nat) (sym : String) (v : Value) : Except Err State :=
  match st.frames.get? sc with
  | none => .error (.undefinedVar sym)
  | some fr =>
    match assocGet fr.bindings sym with
    | some _ => .error (.redeclaredVar sym)
    | none => .ok (st.setFrame sc ⟨fr.bindings ++ [(sym, v)], fr.parent⟩)

/-- Modelled from the spec: spec §4.2 `assign(name, value)` — walk the parent
chain, overwrite the first existing binding, fail with "undefined variable" if
none exists; assignment never creates a binding. -/
def assignVarAux (sym : String) (v : Value) :
    Nat → Nat → List Frame → Except Err (List Frame)
  | 0, _, _ => .error (.undefinedVar sym)
  | fuel + 1, addr, frames =>
    match frames.get? addr with
    | none => .error (.undefinedVar sym)
    | some fr =>
      match assocGet fr.bindings sym with
      | some _ => .ok (frames.set addr ⟨assocSet fr.bindings sym v, fr.parent⟩)
      | none =>
        match fr.parent with
        | none => .error (.undefinedVar sym)
        | some p => assignVarAux sym v fuel p frames

/-- Modelled from the spec: spec §4.2 `assign` (see `assignVarAux`). -/
def assignVar (st : State) (sc : Nat) (sym : String) (v : Value) :
    Except Err State :=
  match assignVarAux sym v st.frames.length sc st.frames with
  | .error e => .error e
  | .ok frames => .ok { st with frames := frames }

/-- Variant (tag) equality of two runtime values. -/
def Value.tagIdx : Value → Nat
  | .nullV => 0
  | .floatV _ => 1
  | .intV _ => 2
  | .boolV _ => 3
  | .strV _ => 5
  | .objV _ => 4
  | .fnV _ _ _ _ => 6
  | .jsFnV _ => 7
  | .protoArtifact _ => 8

/-- The tag comparison `lhs.tag !== rhs.tag` of the source. -/
def Value.sameTag (a b : Value) : Bool := a.tagIdx = b.tagIdx

/-- The JS strict equality `lhs.value === rhs.value` used by the `==` and `!=`
operators: it compares the `value` payloads of the two runtime values, so it is
value equality for primitives, buffer/map identity for Strings and Objects,
AST-node identity for Functions, and `false` across different payload types
(`null === null` is `true`; `NaN === NaN` is `false`). -/
def jsStrictEq : Value → Value → Bool
  | .nullV, .nullV => true
  | .intV a, .intV b => decide (a = b)
  | .floatV x, .floatV y => JsNum.strictEq x y
  | .boolV a, .boolV b => a == b
  | .strV a, .strV b => a == b
  | .objV a, .objV b => a == b
  | .fnV i _ _ _, .fnV j _ _ _ => i == j
  | .jsFnV i, .jsFnV j => i == j
  | .protoArtifact s, .protoArtifact t => s == t
  | _, _ => false

/-- The outcome of one evaluation step: a value, or a propagating signal,
together with the state at that point (heap mutations persist across throws,
as in JS). -/
abbrev EvalFn := Node → Nat → State → Except Sig Value × State

/-- The `expr.args.map(evaluate)` of `evalCallExpr` (part_000 lines 389–391):
arguments evaluated left-to-right; a throw aborts the rest. -/
def evalArgs (ev : EvalFn) : List Expr → Nat → State → Except Sig (List Value) × State
  | [], _, st => (.ok [], st)
  | e :: rest, sc, st =>
    match ev (.expr e) sc st with
    | (.error s, st1) => (.error s, st1)
    | (.ok v, st1) =>
      match evalArgs ev rest sc st1 with
      | (.error s, st2) => (.error s, st2)
      | (.ok vs, st2) => (.ok (v :: vs), st2)

/-- `evalBlockStmt` (part_000 lines 430–435): run the statements in order in
the given scope and produce Null; the block body is run in whatever scope the
caller passes (the child-frame allocation happens at the dispatch and `if`
sites, not here — function calls pass the parameter frame directly). -/
def evalBlockStmt (ev : EvalFn) : List Stmt → Nat → State → Except Sig Value × State
  | [], _, st => (.ok .nullV, st)
  | s :: rest, sc, st =>
    match ev (.stmt s) sc st with
    | (.error sg, st1) => (.error sg, st1)
    | (.ok _, st1) => evalBlockStmt ev rest sc st1

/-- The parameter-binding loop of `evalCallExpr` (part_000 lines 402–404):
`initVar(newScope, parameters[i], args[i])` in order.  The source loops over
the parameter indices after checking arity, so the lists have equal length at
every call site; a surplus on either side is ignored. -/
def initParams : List String → List Value → Nat → State → Except Err Unit × State
  | [], _, _, st => (.ok (), st)
  | _, [], _, st => (.ok (), st)
  | p :: ps, v :: vs, a, st =>
    match initVar st a p v with
    | .error e => (.error e, st)
    | .ok st1 => initParams ps vs a st1

/-- The call-application tail of `evalCallExpr` (part_000 lines 393–415),
applied once callee and arguments are values: host functions are invoked
directly (the three builtins live outside the specified core, spec §1, so a
host call is an unmodelled action); zoe Functions check arity, bind parameters
in a fresh frame whose parent is the captured scope, run the body, absorb a
`Return` signal, and produce Null on fall-through; anything else is not
callable. -/
def applyCallee (ev : EvalFn) (fn : Value) (args : List Value) (st : State) :
    Except Sig Value × State :=
  match fn with
  | .jsFnV _ => (.error (.err .hostUnmodelled), st)
  | .fnV _ captured params body =>
    if args.length ≠ params.length then
      (.error (.err (.msg ("error: function call expected " ++ toString params.length
        ++ " args, received " ++ toString args.length))), st)
    else
      let (a, st1) := st.allocFrame (some captured)
      match initParams params args a st1 with
      | (.error e, st2) => (.error (.err e), st2)
      | (.ok _, st2) =>
        match evalBlockStmt ev body a st2 with
        | (.ok _, st3) => (.ok .nullV, st3)
        | (.error (.ret v), st3) => (.ok v, st3)
        | (.error (.err e), st3) => (.error (.err e), st3)
  | _ => (.error (.err (.msg "error: non function types are not callable")), st)

/-- `evalCallExpr` (part_000 lines 388–416): the argument list is evaluated
first (`expr.args.map` precedes the evaluation of `expr.caller` in the
source), then the callee, then the call is applied. -/
def evalCallExpr (ev : EvalFn) (caller : Expr) (args : List Expr) (sc : Nat)
    (st : State) : Except Sig Value × State :=
  match evalArgs ev args sc st with
  | (.error s, st1) => (.error s, st1)
  | (.ok argVals, st1) =>
    match ev (.expr caller) sc st1 with
    | (.error s, st2) => (.error s, st2)
    | (.ok fn, st2) => applyCallee ev fn argVals st2

/-- `evalSubscriptExpr` (part_000 lines 91–108): both sides evaluated, the
target must be a String and the index an Integer; the only range check is
`rhs.value >= lhs.value.length`, so a negative index passes the check, reads
`undefined` off the buffer, and `BigInt(undefined)` throws a host
`TypeError`. -/
def evalSubscriptExpr (ev : EvalFn) (l r : Expr) (sc : Nat) (st : State) :
    Except Sig Value × State :=
  match ev (.expr l) sc st with
  | (.error s, st1) => (.error s, st1)
  | (.ok lv, st1) =>
    match ev (.expr r) sc st1 with
    | (.error s, st2) => (.error s, st2)
    | (.ok rv, st2) =>
      match lv with
      | .strV a =>
        match rv with
        | .intV i =>
          let bs := (st2.strings.get? a).getD []
          if (bs.length : Int) ≤ i then
            (.error (.err (.msg "error: attempting to index outside of string range")), st2)
          else
            match uint8Read bs i with
            | some b => (.ok (.intV b), st2)
            | none => (.error (.err (.hostTypeError "Cannot convert undefined to a BigInt")), st2)
        | _ => (.error (.err (.msg "error: subscript expression expects integer argument")), st2)
      | _ => (.error (.err (.msg "error: lhs of subscript expresssion must be a string")), st2)

/-- `evalUnaryExpr` (part_000 lines 110–141).  The source updates the operand
value in place (`rhs.value = !rhs.value`, `rhs.value *= -1`) and returns it;
primitives are value-like (spec §3), so this is an update of the local copy. -/
def evalUnaryExpr (ev : EvalFn) (op : String) (e : Expr) (sc : Nat) (st : State) :
    Except Sig Value × State :=
  match ev (.expr e) sc st with
  | (.error s, st1) => (.error s, st1)
  | (.ok rhs, st1) =>
    match op with
    | "!" =>
      match rhs with
      | .boolV b => (.ok (.boolV (!b)), st1)
      | _ => (.error (.err (.msg "error: unary operator '!' only allowed for boolean values")), st1)
    | "-" =>
      match rhs with
      | .floatV x => (.ok (.floatV (x.mul (.num (-1)))), st1)
      | .intV n => (.ok (.intV (n * (-1))), st1)
      | _ => (.error (.err (.msg "error: unary operator '-' only allowed for float or int values")), st1)
    | _ =>
      (.error (.err (.msg ("error: unable to evaluate '" ++ op ++ "' as unary operator expression"))), st1)

/-- `evalBinaryExpr` (part_000 lines 143–268).  Both operands are evaluated
before the operator dispatch — including for `and`/`or`, which therefore do
not short-circuit.  The messages (with their typos) are the source's. -/
def evalBinaryExpr (ev : EvalFn) (l : Expr) (op : String) (r : Expr) (sc : Nat)
    (st : State) : Except Sig Value × State :=
  match ev (.expr l) sc st with
  | (.error s, st1) => (.error s, st1)
  | (.ok lv, st1) =>
    match ev (.expr r) sc st1 with
    | (.error s, st2) => (.error s, st2)
    | (.ok rv, st2) =>
      match op with
      | "and" =>
        match lv, rv with
        | .boolV a, .boolV b => (.ok (.boolV (a && b)), st2)
        | _, _ =>
          (.error (.err (.msg "error: both sides of 'and' operator must be boolean expressions")), st2)
      | "or" =>
        match lv, rv with
        | .boolV a, .boolV b => (.ok (.boolV (a || b)), st2)
        | _, _ =>
          (.error (.err (.msg "error: both sides of 'or' operator must be boolean expressions")), st2)
      | "==" => (.ok (.boolV (jsStrictEq lv rv)), st2)
      | "!=" => (.ok (.boolV (!jsStrictEq lv rv)), st2)
      | "<" =>
        match lv, rv with
        | .intV a, .intV b => (.ok (.boolV (decide (a < b))), st2)
        | .floatV x, .floatV y => (.ok (.boolV (x.lt y)), st2)
        | _, _ =>
          if lv.sameTag rv then
            (.error (.err (.msg "error: operands for '<' must be of type int or float")), st2)
          else
            (.error (.err (.msg "error: operands for '<' must be of the same type")), st2)
      | ">" =>
        match lv, rv with
        | .intV a, .intV b => (.ok (.boolV (decide (a > b))), st2)
        | .floatV x, .floatV y => (.ok (.boolV (x.gt y)), st2)
        | _, _ =>
          if lv.sameTag rv then
            (.error (.err (.msg "error: operands for '>' must be of type int or float")), st2)
          else
            (.error (.err (.msg "error: operands for '>' must be of the same type")), st2)
      | "+" =>
        match lv, rv with
        | .intV a, .intV b => (.ok (.intV (a + b)), st2)
        | .floatV x, .floatV y => (.ok (.floatV (x.add y)), st2)
        | .strV a, .strV b =>
          let bs := strPlusBuffer ((st2.strings.get? a).getD []) ((st2.strings.get? b).getD [])
          let (na, st3) := st2.allocString bs
          (.ok (.strV na), st3)
        | _, _ =>
          if lv.sameTag rv then
            (.error (.err (.msg "error: operands for '+' must be of type int, float, or string")), st2)
          else
            (.error (.err (.msg "error: operands for '+' must be of the same time")), st2)
      | "-" =>
        match lv, rv with
        | .intV a, .intV b => (.ok (.intV (a - b)), st2)
        | .floatV x, .floatV y => (.ok (.floatV (x.sub y)), st2)
        | _, _ =>
          if lv.sameTag rv then
            (.error (.err (.msg "error: operands for '-' must be of type int or float")), st2)
          else
            (.error (.err (.msg "error: operands for '-' must be of the same time")), st2)
      | "*" =>
        match lv, rv with
        | .intV a, .intV b => (.ok (.intV (a * b)), st2)
        | .floatV x, .floatV y => (.ok (.floatV (x.mul y)), st2)
        | _, _ =>
          if lv.sameTag rv then
            (.error (.err (.msg "error: operands for '*' must be of type int or float")), st2)
          else
            (.error (.err (.msg "error: operands for '*' must be of the same time")), st2)
      | "/" =>
        match lv, rv with
        | .intV a, .intV b =>
          if b = 0 then
            (.error (.err (.msg "error: division by zero not allowed")), st2)
          else
            (.ok (.intV (a.tdiv b)), st2)
        | .floatV x, .floatV y =>
          if y.isZero then
            (.error (.err (.msg "error: division by zero not allowed")), st2)
          else
            (.ok (.floatV (x.div y)), st2)
        | _, _ =>
          if lv.sameTag rv then
            (.error (.err (.msg "error: operands for '/' must be of type int or float")), st2)
          else
            (.error (.err (.msg "error: operands for '/' must be of the same time")), st2)
      | "%" =>
        match lv, rv with
        | .intV a, .intV b =>
          if b = 0 then
            (.error (.err (.hostRangeError "Division by zero")), st2)
          else
            (.ok (.intV (a.tmod b)), st2)
        | .floatV x, .floatV y => (.ok (.floatV (x.fmod y)), st2)
        | _, _ =>
          if lv.sameTag rv then
            (.error (.err (.msg "error: operands for '%' must be of type int or float")), st2)
          else
            (.error (.err (.msg "error: operands for '%' must be of the same time")), st2)
      | _ =>
        (.error (.err (.msg ("error: unable to evaluate '" ++ op ++ "' as binary operator expression"))), st2)

/-- `evalMemberExpr` (part_000 lines 292–314): the parent must evaluate to an
Object and the right side must be an Identifier node; the key is read off the
JS plain object, so an absent own key can still hit `Object.prototype`
(`jsObjGet`); only a JS `undefined` result raises the field-absent
diagnostic. -/
def evalMemberExpr (ev : EvalFn) (l r : Expr) (sc : Nat) (st : State) :
    Except Sig Value × State :=
  match ev (.expr l) sc st with
  | (.error s, st1) => (.error s, st1)
  | (.ok parentVal, st1) =>
    match parentVal with
    | .objV a =>
      match r with
      | .ident sym =>
        match jsObjGet ((st1.objects.get? a).getD []) sym with
        | some v => (.ok v, st1)
        | none =>
          (.error (.err (.msg ("error: field " ++ sym ++ " is not present on calling object"))), st1)
      | _ =>
        (.error (.err (.msg "error: right hand side of dot operator must be an identifier")), st1)
    | _ => (.error (.err (.msg "error: dot operator can only be called on type object")), st1)

/-- The property loop of `evalObjectLiteralExpr` (part_000 lines 281–288):
each property value is evaluated (or, for shorthand, looked up) in declaration
order and written into the accumulating map `m`. -/
def evalProps (ev : EvalFn) :
    List (String × Option Expr) → Nat → State → List (String × Value) →
    Except Sig (List (String × Value)) × State
  | [], _, st, m => (.ok m, st)
  | (sym, pv) :: rest, sc, st, m =>
    match pv with
    | none =>
      match lookupVar st sc sym with
      | .error e => (.error (.err e), st)
      | .ok v => evalProps ev rest sc st (assocSet m sym v)
    | some e =>
      match ev (.expr e) sc st with
      | (.error s, st1) => (.error s, st1)
      | (.ok v, st1) => evalProps ev rest sc st1 (assocSet m sym v)

/-- `evalObjectLiteralExpr` (part_000 lines 277–290): build the map, then wrap
it in a fresh Object value. -/
def evalObjectLiteralExpr (ev : EvalFn) (props : List (String × Option Expr))
    (sc : Nat) (st : State) : Except Sig Value × State :=
  match evalProps ev props sc st [] with
  | (.error s, st1) => (.error s, st1)
  | (.ok m, st1) =>
    let (a, st2) := st1.allocObject m
    (.ok (.objV a), st2)

/-- `evalAssignmentExpr` (part_000 lines 317–386).  Identifier: right-hand
side first, then `assignVar`.  Member: object first, identifier checked, then
the right-hand side, then the store (creating the key if absent).  Subscript:
target and index first, String/Integer/range checks, and only then the
right-hand side, checked to be an Integer and stored through the
`Uint8Array` byte conversion; the result is the assigned value itself. -/
def evalAssignmentExpr (ev : EvalFn) (assignee : Expr) (op : String)
    (value : Expr) (sc : Nat) (st : State) : Except Sig Value × State :=
  match op with
  | "=" =>
    match assignee with
    | .ident sym =>
      match ev (.expr value) sc st with
      | (.error s, st1) => (.error s, st1)
      | (.ok v, st1) =>
        match assignVar st1 sc sym v with
        | .error e => (.error (.err e), st1)
        | .ok st2 => (.ok v, st2)
    | .member ml mr =>
      match ev (.expr ml) sc st with
      | (.error s, st1) => (.error s, st1)
      | (.ok parentVal, st1) =>
        match parentVal with
        | .objV a =>
          match mr with
          | .ident sym =>
            match ev (.expr value) sc st1 with
            | (.error s, st2) => (.error s, st2)
            | (.ok v, st2) =>
              let props := (st2.objects.get? a).getD []
              (.ok v, st2.setObject a (assocSet props sym v))
          | _ =>
            (.error (.err (.msg "error: right hand side of dot operator must be an identifier")), st1)
        | _ =>
          (.error (.err (.msg "error: dot operator can only be called on type object")), st1)
    | .subscript sl sr =>
      match ev (.expr sl) sc st with
      | (.error s, st1) => (.error s, st1)
      | (.ok lv, st1) =>
        match ev (.expr sr) sc st1 with
        | (.error s, st2) => (.error s, st2)
        | (.ok rv, st2) =>
          match lv with
          | .strV a =>
            match rv with
            | .intV i =>
              let bs := (st2.strings.get? a).getD []
              if (bs.length : Int) ≤ i then
                (.error (.err (.msg "error: attempting to index outside of string range")), st2)
              else
                match ev (.expr value) sc st2 with
                | (.error s, st3) => (.error s, st3)
                | (.ok vv, st3) =>
                  match vv with
                  | .intV v => (.ok (.intV v), st3.storeByte a i v)
                  | _ =>
                    (.error (.err (.msg "error: string index can only be assigned to type integer")), st3)
            | _ => (.error (.err (.msg "error: subscript expression expects integer argument")), st2)
          | _ => (.error (.err (.msg "error: lhs of subscript expresssion must be a string")), st2)
    | _ => (.error (.err (.msg "error: assignee must be an identifier or object property")), st)
  | _ =>
    (.error (.err (.msg ("error: unable to evaluate '" ++ op ++ "' as assignment expression"))), st)

/-- The `if` chain of `evalIfStmt` (part_000 lines 450–465): conditions in
order, each required to be Boolean; the first `true` branch runs in a fresh
child frame and stops; otherwise the optional `else` block runs in a fresh
child frame. -/
def evalIfStmt (ev : EvalFn) :
    List (Expr × List Stmt) → Option (List Stmt) → Nat → State →
    Except Sig Value × State
  | [], dflt, sc, st =>
    match dflt with
    | none => (.ok .nullV, st)
    | some b =>
      let (a, st1) := st.allocFrame (some sc)
      match evalBlockStmt ev b a st1 with
      | (.error s, st2) => (.error s, st2)
      | (.ok _, st2) => (.ok .nullV, st2)
  | (c, b) :: rest, dflt, sc, st =>
    match ev (.expr c) sc st with
    | (.error s, st1) => (.error s, st1)
    | (.ok cv, st1) =>
      match cv with
      | .boolV true =>
        let (a, st2) := st1.allocFrame (some sc)
        match evalBlockStmt ev b a st2 with
        | (.error s, st3) => (.error s, st3)
        | (.ok _, st3) => (.ok .nullV, st3)
      | .boolV false => evalIfStmt ev rest dflt sc st1
      | _ => (.error (.err (.msg "error: if condition must be a boolean expression")), st1)

/-- `evaluate` (part_000 lines 40–88): the dispatch table.  One unit of fuel
is consumed per node; the entered node is recorded in the ghost trace.  Note
the String-literal case: `StringValue(node.value)` wraps the literal node's
own buffer, so the value returned holds the node's buffer address — no copy is
made. -/
def evaluate : Nat → Node → Nat → State → Except Sig Value × State
  | 0, _, _, st => (.error (.err .outOfFuel), st)
  | fuel + 1, node, sc, st =>
    let ev : EvalFn := evaluate fuel
    let st := st.emit (nodeEv node)
    match node with
    | .stmt (.varStmt sym e) =>
      match ev (.expr e) sc st with
      | (.error s, st1) => (.error s, st1)
      | (.ok v, st1) =>
        match initVar st1 sc sym v with
        | .error er => (.error (.err er), st1)
        | .ok st2 => (.ok .nullV, st2)
    | .stmt (.exprStmt e) =>
      match ev (.expr e) sc st with
      | (.error s, st1) => (.error s, st1)
      | (.ok _, st1) => (.ok .nullV, st1)
    | .stmt (.blockStmt ss) =>
      let (a, st1) := st.allocFrame (some sc)
      evalBlockStmt ev ss a st1
    | .stmt (.ifStmt ifs dflt) => evalIfStmt ev ifs dflt sc st
    | .stmt (.returnStmt e) =>
      match ev (.expr e) sc st with
      | (.error s, st1) => (.error s, st1)
      | (.ok v, st1) => (.error (.ret v), st1)
    | .expr (.intLit n) => (.ok (.intV n), st)
    | .expr (.floatLit q) => (.ok (.floatV (.num q)), st)
    | .expr .nullLit => (.ok .nullV, st)
    | .expr (.boolLit b) => if b then (.ok (.boolV true), st) else (.ok (.boolV false), st)
    | .expr (.strLit a) => (.ok (.strV a), st)
    | .expr (.ident s) =>
      match lookupVar st sc s with
      | .ok v => (.ok v, st)
      | .error e => (.error (.err e), st)
    | .expr (.binary l op r) => evalBinaryExpr ev l op r sc st
    | .expr (.unary op e) => evalUnaryExpr ev op e sc st
    | .expr (.assign a op v) => evalAssignmentExpr ev a op v sc st
    | .expr (.member l r) => evalMemberExpr ev l r sc st
    | .expr (.subscript l r) => evalSubscriptExpr ev l r sc st
    | .expr (.call c args) => evalCallExpr ev c args sc st
    | .expr (.objectLit props) => evalObjectLiteralExpr ev props sc st
    | .expr (.fnLit i params body) => (.ok (.fnV i sc params body), st)

/-- `interpret` (part_000 lines 32–38): evaluate the statements in order
against the given scope, returning the last produced value. -/
def interpret (fuel : Nat) : List Stmt → Nat → State → Except Sig Value × State
  | [], _, st => (.ok .nullV, st)
  | [s], sc, st => evaluate fuel (.stmt s) sc st
  | s :: rest, sc, st =>
    match evaluate fuel (.stmt s) sc st with
    | (.error sg, st1) => (.error sg, st1)
    | (.ok _, st1) => interpret fuel rest sc st1

/-! ## Dispatch lemmas

One-step unfoldings of `evaluate` at each node shape (all definitional). -/

theorem evaluate_binary (fuel : Nat) (l : Expr) (op : String) (r : Expr)
    (sc : Nat) (st : State) :
    evaluate (fuel + 1) (.expr (.binary l op r)) sc st
      = evalBinaryExpr (evaluate fuel) l op r sc (st.emit (.binaryE op)) := rfl

theorem evaluate_unary (fuel : Nat) (op : String) (e : Expr) (sc : Nat) (st : State) :
    evaluate (fuel + 1) (.expr (.unary op e)) sc st
      = evalUnaryExpr (evaluate fuel) op e sc (st.emit (.unaryE op)) := rfl

theorem evaluate_subscript (fuel : Nat) (l r : Expr) (sc : Nat) (st : State) :
    evaluate (fuel + 1) (.expr (.subscript l r)) sc st
      = evalSubscriptExpr (evaluate fuel) l r sc (st.emit .subscriptE) := rfl

theorem evaluate_assign (fuel : Nat) (a : Expr) (op : String) (v : Expr)
    (sc : Nat) (st : State) :
    evaluate (fuel + 1) (.expr (.assign a op v)) sc st
      = evalAssignmentExpr (evaluate fuel) a op v sc (st.emit (.assignE op)) := rfl

theorem evaluate_callNode (fuel : Nat) (c : Expr) (args : List Expr) (sc : Nat) (st : State) :
    evaluate (fuel + 1) (.expr (.call c args)) sc st
      = evalCallExpr (evaluate fuel) c args sc (st.emit .callE) := rfl

theorem evaluate_identNode (fuel : Nat) (x : String) (sc : Nat) (st : State) :
    evaluate (fuel + 1) (.expr (.ident x)) sc st
      = (match lookupVar st sc x with
         | .ok v => (.ok v, st.emit (.identE x))
         | .error e => (.error (.err e), st.emit (.identE x))) := rfl

/-! ## C9 — `and` / `or`: both operands always evaluated, no short-circuit -/

/-- C9: for a binary expression with operator `and` or `or`, the left operand
is evaluated first and the right operand is always evaluated afterwards — even
when the left operand is already `false` (for `and`) or `true` (for `or`), and
even when an operand is not Boolean; only after both evaluations does the
operator check that both results are Boolean (raising a runtime error
otherwise) and produce the conjunction resp. disjunction.  The six conjuncts
cover: both operands produce values (result is the Boolean operation or the
type error, with the right operand's side effects retained in the final
state); the right operand throws (its signal propagates, so it was evaluated
regardless of the left value — no short-circuit); the left operand throws
(its signal propagates before the right operand runs). -/
theorem c9_logical_operators (fuel : Nat) (l r : Expr) (sc : Nat) (st : State) :
    (∀ st1 st2 lv rv,
      evaluate fuel (.expr l) sc (st.emit (.binaryE "and")) = (.ok lv, st1) →
      evaluate fuel (.expr r) sc st1 = (.ok rv, st2) →
      evaluate (fuel + 1) (.expr (.binary l "and" r)) sc st =
        (match lv, rv with
         | .boolV a, .boolV b => (.ok (.boolV (a && b)), st2)
         | _, _ =>
           (.error (.err (.msg "error: both sides of 'and' operator must be boolean expressions")), st2)))
  ∧ (∀ st1 st2 lv rv,
      evaluate fuel (.expr l) sc (st.emit (.binaryE "or")) = (.ok lv, st1) →
      evaluate fuel (.expr r) sc st1 = (.ok rv, st2) →
      evaluate (fuel + 1) (.expr (.binary l "or" r)) sc st =
        (match lv, rv with
         | .boolV a, .boolV b => (.ok (.boolV (a || b)), st2)
         | _, _ =>
           (.error (.err (.msg "error: both sides of 'or' operator must be boolean expressions")), st2)))
  ∧ (∀ st1 st2 lv sg,
      evaluate fuel (.expr l) sc (st.emit (.binaryE "and")) = (.ok lv, st1) →
      evaluate fuel (.expr r) sc st1 = (.error sg, st2) →
      evaluate (fuel + 1) (.expr (.binary l "and" r)) sc st = (.error sg, st2))
  ∧ (∀ st1 st2 lv sg,
      evaluate fuel (.expr l) sc (st.emit (.binaryE "or")) = (.ok lv, st1) →
      evaluate fuel (.expr r) sc st1 = (.error sg, st2) →
      evaluate (fuel + 1) (.expr (.binary l "or" r)) sc st = (.error sg, st2))
  ∧ (∀ st1 sg,
      evaluate fuel (.expr l) sc (st.emit (.binaryE "and")) = (.error sg, st1) →
      evaluate (fuel + 1) (.expr (.binary l "and" r)) sc st = (.error sg, st1))
  ∧ (∀ st1 sg,
      evaluate fuel (.expr l) sc (st.emit (.binaryE "or")) = (.error sg, st1) →
      evaluate (fuel + 1) (.expr (.binary l "or" r)) sc st = (.error sg, st1)) := by
  refine ⟨?_, ?_, ?_, ?_, ?_, ?_⟩
  · intro st1 st2 lv rv h1 h2
    rw [evaluate_binary]; unfold evalBinaryExpr
    simp only [h1, h2]
  · intro st1 st2 lv rv h1 h2
    rw [evaluate_binary]; unfold evalBinaryExpr
    simp only [h1, h2]
  · intro st1 st2 lv sg h1 h2
    rw [evaluate_binary]; unfold evalBinaryExpr
    simp only [h1, h2]
  · intro st1 st2 lv sg h1 h2
    rw [evaluate_binary]; unfold evalBinaryExpr
    simp only [h1, h2]
  · intro st1 sg h1
    rw [evaluate_binary]; unfold evalBinaryExpr
    simp only [h1]
  · intro st1 sg h1
    rw [evaluate_binary]; unfold evalBinaryExpr
    simp only [h1]

/-- Closed instance of `c9_logical_operators`: `false and true` evaluates to
`false`, and in `false and nope` (with `nope` unbound) the undefined-variable
error from the right operand surfaces — so the right operand was evaluated
even though the left operand was already `false`: no short-circuit. -/
theorem c9_logical_operators_witness :
    (evaluate 2 (.expr (.binary (.boolLit false) "and" (.boolLit true))) 0
        ⟨[⟨[], none⟩], [], [], []⟩).1 = .ok (.boolV false)
  ∧ (evaluate 2 (.expr (.binary (.boolLit false) "and" (.ident "nope"))) 0
        ⟨[⟨[], none⟩], [], [], []⟩).1 = .error (.err (.undefinedVar "nope")) := by
  constructor
  · exact congrArg Prod.fst
      ((c9_logical_operators 1 (.boolLit false) (.boolLit true) 0
        ⟨[⟨[], none⟩], [], [], []⟩).1 _ _ _ _ rfl rfl)
  · exact congrArg Prod.fst
      ((c9_logical_operators 1 (.boolLit false) (.ident "nope") 0
        ⟨[⟨[], none⟩], [], [], []⟩).2.2.1 _ _ _ _ rfl rfl)

/-! ## C2 — call evaluation order -/

/-- C2 (amended): for every Call expression the argument expressions are
evaluated left-to-right into a list first, and the callee expression is
evaluated only afterwards, from the state the argument evaluations produced;
the call is then applied to the callee value and the argument list.  If
argument evaluation throws, that signal is the result and the callee is never
reached (the final state is exactly the post-arguments state). -/
theorem c2_call_evaluation_order (fuel : Nat) (c : Expr) (args : List Expr)
    (sc : Nat) (st : State) :
    (∀ vs st1,
      evalArgs (evaluate fuel) args sc (st.emit .callE) = (.ok vs, st1) →
      evaluate (fuel + 1) (.expr (.call c args)) sc st =
        (match evaluate fuel (.expr c) sc st1 with
         | (.error s, st2) => (.error s, st2)
         | (.ok fn, st2) => applyCallee (evaluate fuel) fn vs st2))
  ∧ (∀ sg st1,
      evalArgs (evaluate fuel) args sc (st.emit .callE) = (.error sg, st1) →
      evaluate (fuel + 1) (.expr (.call c args)) sc st = (.error sg, st1)) := by
  constructor
  · intro vs st1 h
    rw [evaluate_callNode]; unfold evalCallExpr
    simp only [h]
  · intro sg st1 h
    rw [evaluate_callNode]; unfold evalCallExpr
    simp only [h]

/-- Closed instance of `c2_call_evaluation_order`: calling a unary function
`g` bound in the root frame on the literal `1` goes through the
arguments-then-callee pipeline and completes with Null. -/
theorem c2_call_evaluation_order_witness :
    (evaluate 10 (.expr (.call (.ident "g") [.intLit 1])) 0
        ⟨[⟨[("g", .fnV 0 0 ["a"] [])], none⟩], [], [], []⟩).1 = .ok .nullV := by
  exact congrArg Prod.fst
    ((c2_call_evaluation_order 9 (.ident "g") [.intLit 1] 0
      ⟨[⟨[("g", .fnV 0 0 ["a"] [])], none⟩], [], [], []⟩).1 [.intV 1] _ rfl)

/-- C2 (counterexample to the claim as stated): in the call `f(x)` the ghost
trace of entered nodes is `[call, identifier x, identifier f]` — the argument
`x` is evaluated strictly before the callee `f`, so the callee is NOT
evaluated before the arguments (`expr.args.map(evaluate)` precedes
`evaluate(expr.caller)` in `evalCallExpr`, part_000 lines 389–392). -/
theorem c2_args_before_callee :
    ((evaluate 10 (.expr (.call (.ident "f") [.ident "x"])) 0
        ⟨[⟨[("f", .fnV 0 0 ["a"] []), ("x", .intV 7)], none⟩], [], [], []⟩).2.trace
      = [.callE, .identE "x", .identE "f"])
  ∧ List.indexOf (Ev.identE "x") [Ev.callE, Ev.identE "x", Ev.identE "f"]
      < List.indexOf (Ev.identE "f") [Ev.callE, Ev.identE "x", Ev.identE "f"] := by
  constructor
  · rfl
  · decide

/-- The in-place `rhs.value *= -1` of the source is the negation of the
number. -/
theorem JsNum.mul_negOne (x : JsNum) : x.mul (.num (-1)) = x.neg := by
  cases x with
  | num a => show JsNum.num (a * (-1)) = JsNum.num (-a); rw [mul_neg_one]
  | nan => rfl

/-! ## C3 — unary `!` / `-` on an identifier: value and frame effect -/

/-- C3: when the identifier `x` is bound to a Boolean, evaluating `!x` returns
the negation of the bound value; when `x` is bound to an Integer or a Float,
evaluating `-x` returns its negation.  In all three cases the final state has
the same frames, strings and objects as the initial state — only the ghost
trace grows — so the binding of `x` in every scope frame is unchanged
(primitives are value-like: the lookup copies, and the in-place update in
`evalUnaryExpr` touches only the copy). -/
theorem c3_unary_value_like (fuel : Nat) (st : State) (sc : Nat) (x : String) :
    (∀ b : Bool, lookupVar st sc x = .ok (.boolV b) →
      evaluate (fuel + 2) (.expr (.unary "!" (.ident x))) sc st
        = (.ok (.boolV (!b)), { st with trace := st.trace ++ [.unaryE "!", .identE x] }))
  ∧ (∀ n : Int, lookupVar st sc x = .ok (.intV n) →
      evaluate (fuel + 2) (.expr (.unary "-" (.ident x))) sc st
        = (.ok (.intV (-n)), { st with trace := st.trace ++ [.unaryE "-", .identE x] }))
  ∧ (∀ q : JsNum, lookupVar st sc x = .ok (.floatV q) →
      evaluate (fuel + 2) (.expr (.unary "-" (.ident x))) sc st
        = (.ok (.floatV q.neg), { st with trace := st.trace ++ [.unaryE "-", .identE x] })) := by
  refine ⟨?_, ?_, ?_⟩
  · intro b h
    rw [evaluate_unary (fuel + 1)]
    unfold evalUnaryExpr
    rw [evaluate_identNode]
    have hl : lookupVar (st.emit (.unaryE "!")) sc x = .ok (.boolV b) := h
    simp only [hl]
    simp [State.emit]
  · intro n h
    rw [evaluate_unary (fuel + 1)]
    unfold evalUnaryExpr
    rw [evaluate_identNode]
    have hl : lookupVar (st.emit (.unaryE "-")) sc x = .ok (.intV n) := h
    simp only [hl]
    rw [Int.mul_neg_one]
    simp [State.emit]
  · intro q h
    rw [evaluate_unary (fuel + 1)]
    unfold evalUnaryExpr
    rw [evaluate_identNode]
    have hl : lookupVar (st.emit (.unaryE "-")) sc x = .ok (.floatV q) := h
    simp only [hl]
    rw [JsNum.mul_negOne]
    simp [State.emit]

/-- Closed instance of `c3_unary_value_like`: with `b ↦ true`, `n ↦ 5`,
`f ↦ 2.0` in the root frame, `!b`, `-n`, `-f` return `false`, `-5`, `-2.0`
and leave every binding unchanged. -/
theorem c3_unary_value_like_witness :
    (evaluate 2 (.expr (.unary "!" (.ident "b"))) 0
        ⟨[⟨[("b", .boolV true), ("n", .intV 5), ("f", .floatV (.num 2))], none⟩], [], [], []⟩
      = (.ok (.boolV false),
         ⟨[⟨[("b", .boolV true), ("n", .intV 5), ("f", .floatV (.num 2))], none⟩], [], [],
          [.unaryE "!", .identE "b"]⟩))
  ∧ (evaluate 2 (.expr (.unary "-" (.ident "n"))) 0
        ⟨[⟨[("b", .boolV true), ("n", .intV 5), ("f", .floatV (.num 2))], none⟩], [], [], []⟩
      = (.ok (.intV (-5)),
         ⟨[⟨[("b", .boolV true), ("n", .intV 5), ("f", .floatV (.num 2))], none⟩], [], [],
          [.unaryE "-", .identE "n"]⟩))
  ∧ (evaluate 2 (.expr (.unary "-" (.ident "f"))) 0
        ⟨[⟨[("b", .boolV true), ("n", .intV 5), ("f", .floatV (.num 2))], none⟩], [], [], []⟩
      = (.ok (.floatV (.num (-2))),
         ⟨[⟨[("b", .boolV true), ("n", .intV 5), ("f", .floatV (.num 2))], none⟩], [], [],
          [.unaryE "-", .identE "f"]⟩)) := by
  refine ⟨?_, ?_, ?_⟩
  · exact (c3_unary_value_like 0
      ⟨[⟨[("b", .boolV true), ("n", .intV 5), ("f", .floatV (.num 2))], none⟩], [], [], []⟩
      0 "b").1 true rfl
  · exact (c3_unary_value_like 0
      ⟨[⟨[("b", .boolV true), ("n", .intV 5), ("f", .floatV (.num 2))], none⟩], [], [], []⟩
      0 "n").2.1 5 rfl
  · exact (c3_unary_value_like 0
      ⟨[⟨[("b", .boolV true), ("n", .intV 5), ("f", .floatV (.num 2))], none⟩], [], [], []⟩
      0 "f").2.2 (.num 2) rfl

/-! ## C4 — subscript reads and the range check -/

/-- C4 (amended): for a subscript read `a[i]` whose target evaluates to a
String with buffer `bs` and whose index evaluates to an Integer `i`:
when `0 ≤ i < len`, the result is the byte at `i` as an Integer (and it lies
in `[0, 255]` whenever the buffer is made of bytes); when `i ≥ len`, the read
fails with the index-out-of-range diagnostic; but for `i < 0` the source's
only check (`rhs.value >= lhs.value.length`) does not fire — the read yields
JS `undefined` and `BigInt(undefined)` throws a host `TypeError`, not the
index-out-of-range diagnostic. -/
theorem c4_subscript_read_semantics (fuel : Nat) (l r : Expr) (sc : Nat)
    (st st1 st2 : State) (a : Nat) (i : Int) (bs : List Nat)
    (h1 : evaluate fuel (.expr l) sc (st.emit .subscriptE) = (.ok (.strV a), st1))
    (h2 : evaluate fuel (.expr r) sc st1 = (.ok (.intV i), st2))
    (h3 : st2.strings.get? a = some bs) :
    (0 ≤ i → i < (bs.length : Int) →
      ∃ b, bs.get? i.toNat = some b
        ∧ evaluate (fuel + 1) (.expr (.subscript l r)) sc st = (.ok (.intV b), st2)
        ∧ ((∀ c ∈ bs, c ≤ 255) → b ≤ 255))
  ∧ ((bs.length : Int) ≤ i →
      evaluate (fuel + 1) (.expr (.subscript l r)) sc st
        = (.error (.err (.msg "error: attempting to index outside of string range")), st2))
  ∧ (i < 0 →
      evaluate (fuel + 1) (.expr (.subscript l r)) sc st
        = (.error (.err (.hostTypeError "Cannot convert undefined to a BigInt")), st2)) := by
  refine ⟨?_, ?_, ?_⟩
  · intro h0 hlen
    have hn : i.toNat < bs.length := by omega
    have hb : bs.get? i.toNat = some (bs.get ⟨i.toNat, hn⟩) := List.get?_eq_get hn
    refine ⟨bs.get ⟨i.toNat, hn⟩, hb, ?_, ?_⟩
    · rw [evaluate_subscript]
      unfold evalSubscriptExpr
      simp only [h1, h2, h3]
      have hif : ¬ ((bs.length : Int) ≤ i) := by omega
      simp only [Option.getD_some, hif, if_neg, reduceIte, uint8Read, h0, if_pos, hb]
    · intro hwf
      exact hwf _ (List.get?_mem hb)
  · intro hge
    rw [evaluate_subscript]
    unfold evalSubscriptExpr
    simp only [h1, h2, h3, Option.getD_some]
    rw [if_pos hge]
  · intro hneg
    rw [evaluate_subscript]
    unfold evalSubscriptExpr
    simp only [h1, h2, h3, Option.getD_some]
    have hif : ¬ ((bs.length : Int) ≤ i) := by omega
    rw [if_neg hif]
    unfold uint8Read
    rw [if_neg (by omega)]

/-- Closed instance of `c4_subscript_read_semantics`: reading `"a"[0]` yields
the byte 97, and reading `"a"[5]` raises the index-out-of-range diagnostic. -/
theorem c4_subscript_read_semantics_witness :
    (evaluate 2 (.expr (.subscript (.strLit 0) (.intLit 0))) 0
        ⟨[⟨[], none⟩], [[97]], [], []⟩).1 = .ok (.intV 97)
  ∧ (evaluate 2 (.expr (.subscript (.strLit 0) (.intLit 5))) 0
        ⟨[⟨[], none⟩], [[97]], [], []⟩).1
      = .error (.err (.msg "error: attempting to index outside of string range")) := by
  constructor
  · obtain ⟨b, hb, heq, -⟩ :=
      (c4_subscript_read_semantics 1 (.strLit 0) (.intLit 0) 0
        ⟨[⟨[], none⟩], [[97]], [], []⟩ _ _ 0 0 [97] rfl rfl rfl).1
        (by decide) (by decide)
    injection hb with hb97
    rw [heq, ← hb97]
    rfl
  · exact congrArg Prod.fst
      ((c4_subscript_read_semantics 1 (.strLit 0) (.intLit 5) 0
        ⟨[⟨[], none⟩], [[97]], [], []⟩ _ _ 0 5 [97] rfl rfl rfl).2.1 (by decide))

/-- C4 (counterexample to the claim as stated): reading `"a"[-1]` does NOT
fail with the index-out-of-range diagnostic — the negative index passes the
only range check and the code crashes with the host `TypeError` from
`BigInt(undefined)` instead. -/
theorem c4_negative_index_host_error :
    ((evaluate 10 (.expr (.subscript (.ident "s") (.unary "-" (.intLit 1)))) 0
        ⟨[⟨[("s", .strV 0)], none⟩], [[97]], [], []⟩).1
      = .error (.err (.hostTypeError "Cannot convert undefined to a BigInt")))
  ∧ Err.hostTypeError "Cannot convert undefined to a BigInt"
      ≠ Err.msg "error: attempting to index outside of string range" := by
  exact ⟨rfl, by decide⟩

/-! ## C10 — subscript assignment -/

set_option maxRecDepth 8000 in
/-- The conversion `Number(v)` of a `bigint` is exact whenever `|v| ≤ 2^53`. -/
theorem bigIntToDouble_exact (v : Int) (h : v.natAbs ≤ 2 ^ 53) :
    bigIntToDouble v = some v := by
  by_cases h' : v.natAbs < 2 ^ 53
  · unfold bigIntToDouble
    simp only [h', if_pos]
  · have habs : v.natAbs = 2 ^ 53 := by omega
    rcases Int.natAbs_eq v with hv | hv
    · rw [hv, habs]
      decide
    · rw [hv, habs]
      decide

/-- For `|v| ≤ 2^53` the stored byte is exactly `v mod 256`. -/
theorem jsUint8OfBigInt_small (v : Int) (h : v.natAbs ≤ 2 ^ 53) :
    jsUint8OfBigInt v = (v % 256).toNat := by
  unfold jsUint8OfBigInt
  rw [bigIntToDouble_exact v h]

/-- C10 (amended): for a subscript assignment `s[i] = v` whose target
evaluates to a String with buffer `bs` and whose index evaluates to an
Integer `i` with `0 ≤ i < len`: the right-hand side is evaluated only after
the string, integer and range checks succeed (it runs from the post-check
state `st2`, and when the range check fails the result state is `st2`, before
any right-hand-side effect); the byte stored at `i` is
`jsUint8OfBigInt v` — the low byte of the JS conversion `Number(v)` — which
equals `v mod 256` whenever `|v| ≤ 2^53 `, but not in general (the conversion
rounds larger magnitudes, see the counterexample); and the value of the whole
assignment expression is the original Integer `v`, not the stored byte. -/
theorem c10_subscript_assignment (fuel : Nat) (sl sr value : Expr) (sc : Nat)
    (st st1 st2 : State) (a : Nat) (i : Int) (bs : List Nat)
    (h1 : evaluate fuel (.expr sl) sc (st.emit (.assignE "=")) = (.ok (.strV a), st1))
    (h2 : evaluate fuel (.expr sr) sc st1 = (.ok (.intV i), st2))
    (h3 : st2.strings.get? a = some bs) :
    (∀ v st3 bs2, 0 ≤ i → i < (bs.length : Int) →
      evaluate fuel (.expr value) sc st2 = (.ok (.intV v), st3) →
      st3.strings.get? a = some bs2 → i < (bs2.length : Int) →
      evaluate (fuel + 1) (.expr (.assign (.subscript sl sr) "=" value)) sc st
        = (.ok (.intV v), st3.setString a (bs2.set i.toNat (jsUint8OfBigInt v)))
      ∧ (v.natAbs ≤ 2 ^ 53 → jsUint8OfBigInt v = (v % 256).toNat))
  ∧ ((bs.length : Int) ≤ i →
      evaluate (fuel + 1) (.expr (.assign (.subscript sl sr) "=" value)) sc st
        = (.error (.err (.msg "error: attempting to index outside of string range")), st2)) := by
  constructor
  · intro v st3 bs2 h0 hlt hv h4 hlt2
    constructor
    · rw [evaluate_assign]
      unfold evalAssignmentExpr
      simp only [h1, h2, h3, hv, Option.getD_some]
      rw [if_neg (by omega)]
      unfold State.storeByte
      simp only [h4]
      rw [if_pos ⟨h0, hlt2⟩]
    · intro hsmall
      exact jsUint8OfBigInt_small v hsmall
  · intro hge
    rw [evaluate_assign]
    unfold evalAssignmentExpr
    simp only [h1, h2, h3, Option.getD_some]
    rw [if_pos hge]

/-- Closed instance of `c10_subscript_assignment`: `s[0] = 5` on the
one-byte string `"a"` stores the byte 5 and the expression's value is the
Integer 5. -/
theorem c10_subscript_assignment_witness :
    (evaluate 2 (.expr (.assign (.subscript (.strLit 0) (.intLit 0)) "=" (.intLit 5))) 0
        ⟨[⟨[], none⟩], [[97]], [], []⟩).1 = .ok (.intV 5)
  ∧ (evaluate 2 (.expr (.assign (.subscript (.strLit 0) (.intLit 0)) "=" (.intLit 5))) 0
        ⟨[⟨[], none⟩], [[97]], [], []⟩).2.strings = [[5]] := by
  have h := ((c10_subscript_assignment 1 (.strLit 0) (.intLit 0) (.intLit 5) 0
      ⟨[⟨[], none⟩], [[97]], [], []⟩ _ _ 0 0 [97] rfl rfl rfl).1
      5 _ [97] (by decide) (by decide) rfl rfl (by decide)).1
  exact ⟨congrArg Prod.fst h, congrArg (fun p => p.2.strings) h⟩

set_option maxRecDepth 8000 in
/-- C10 (counterexample to the claim as stated): for `v = 2^53 + 1` the
assignment `s[0] = v` stores the byte 0, because `Number(9007199254740993n)`
rounds to `9007199254740992` (whose low byte is 0), while `v mod 256 = 1`;
the value of the assignment is still the original Integer `v`. -/
theorem c10_large_integer_store :
    ((evaluate 10 (.expr (.assign (.subscript (.ident "s") (.intLit 0)) "="
        (.intLit 9007199254740993))) 0
        ⟨[⟨[("s", .strV 0)], none⟩], [[97]], [], []⟩).1 = .ok (.intV 9007199254740993))
  ∧ ((evaluate 10 (.expr (.assign (.subscript (.ident "s") (.intLit 0)) "="
        (.intLit 9007199254740993))) 0
        ⟨[⟨[("s", .strV 0)], none⟩], [[97]], [], []⟩).2.strings = [[0]])
  ∧ (9007199254740993 : Int) % 256 = 1
  ∧ (0 : Nat) ≠ 1 := by
  refine ⟨rfl, by decide, by decide, by decide⟩

/-! ## C8 — function call semantics -/

/-- The element just appended at the old length. -/
theorem frames_get_concat (fs : List Frame) (f : Frame) :
    (fs ++ [f]).get? fs.length = some f := by
  induction fs with
  | nil => rfl
  | cons a t ih => exact ih

/-- Setting the just-appended element. -/
theorem frames_set_concat (fs : List Frame) (f g : Frame) :
    (fs ++ [f]).set fs.length g = fs ++ [g] := by
  induction fs with
  | nil => rfl
  | cons a t ih => simp [ih]

/-- Appending a differently-named binding keeps a key absent. -/
theorem assocGet_append_none (B : List (String × Value)) (p p' : String) (v : Value)
    (hB : assocGet B p' = none) (hne : p ≠ p') :
    assocGet (B ++ [(p, v)]) p' = none := by
  induction B with
  | nil => simp [assocGet, hne]
  | cons hd tl ih =>
    obtain ⟨k, w⟩ := hd
    simp only [List.cons_append, assocGet] at hB ⊢
    by_cases hk : k = p'
    · simp [hk] at hB
    · simp only [hk, if_neg, reduceIte] at hB ⊢
      exact ih hB

/-- The parameter-binding loop: starting from a frame just allocated at
address `fs.length` with bindings `B` and parent `S`, binding distinct
parameters to the matching arguments succeeds and extends the frame's
bindings with exactly `ps.zip vs`. -/
theorem initParams_bindings (ps : List String) :
    ∀ (vs : List Value) (fs : List Frame) (B : List (String × Value))
      (S : Option Nat) (strs : List (List Nat))
      (objs : List (List (String × Value))) (tr : List Ev),
      ps.Nodup → ps.length = vs.length →
      (∀ p ∈ ps, assocGet B p = none) →
      initParams ps vs fs.length ⟨fs ++ [⟨B, S⟩], strs, objs, tr⟩
        = (.ok (), ⟨fs ++ [⟨B ++ ps.zip vs, S⟩], strs, objs, tr⟩) := by
  induction ps with
  | nil =>
    intro vs fs B S strs objs tr _ _ _
    simp [initParams]
  | cons p ps ih =>
    intro vs fs B S strs objs tr hnd hlen hB
    cases vs with
    | nil => simp at hlen
    | cons v vs =>
      have step : initVar ⟨fs ++ [⟨B, S⟩], strs, objs, tr⟩ fs.length p v
          = .ok ⟨fs ++ [⟨B ++ [(p, v)], S⟩], strs, objs, tr⟩ := by
        unfold initVar
        have hg : (⟨fs ++ [⟨B, S⟩], strs, objs, tr⟩ : State).frames.get? fs.length
            = some ⟨B, S⟩ := frames_get_concat fs ⟨B, S⟩
        simp only [hg, hB p (List.mem_cons_self p ps)]
        unfold State.setFrame
        have hs : (fs ++ [(⟨B, S⟩ : Frame)]).set fs.length ⟨B ++ [(p, v)], S⟩
            = fs ++ [⟨B ++ [(p, v)], S⟩] := frames_set_concat fs ⟨B, S⟩ ⟨B ++ [(p, v)], S⟩
        simp [hs]
      unfold initParams
      simp only [step]
      have hnd' := (List.nodup_cons.mp hnd).2
      have hmem := (List.nodup_cons.mp hnd).1
      have hB' : ∀ p' ∈ ps, assocGet (B ++ [(p, v)]) p' = none := by
        intro p' hp'
        refine assocGet_append_none B p p' v (hB p' (List.mem_cons_of_mem p hp')) ?_
        intro hpp
        exact hmem (hpp ▸ hp')
      have := ih vs fs (B ++ [(p, v)]) S strs objs tr hnd' (by simpa using hlen) hB'
      rw [this]
      simp

/-- C8: applying a Function value with captured scope `S`, parameters
`params` and body `body` to an argument list (this is the `FUNCTION` branch of
`evalCallExpr`, which receives no caller scope at all): when the argument
count differs from the parameter count the call fails with the arity
diagnostic and no frame is created; when they match (and the parameters are
distinct), the body is evaluated in a freshly allocated frame whose parent is
the captured scope `S` — not any caller scope — with each parameter bound
there to the matching argument (`params.zip args`); the call produces Null
when the body falls through, the carried value when the body unwinds via a
`Return` signal, and propagates any other signal. -/
theorem c8_call_semantics (ev : EvalFn) (nid S : Nat) (params : List String)
    (body : List Stmt) (args : List Value) (st : State) :
    (args.length ≠ params.length →
      applyCallee ev (.fnV nid S params body) args st
        = (.error (.err (.msg ("error: function call expected " ++ toString params.length
            ++ " args, received " ++ toString args.length))), st))
  ∧ (args.length = params.length → params.Nodup →
      applyCallee ev (.fnV nid S params body) args st
        = (match evalBlockStmt ev body st.frames.length
             { st with frames := st.frames ++ [⟨params.zip args, some S⟩] } with
           | (.ok _, st3) => (.ok .nullV, st3)
           | (.error (.ret v), st3) => (.ok v, st3)
           | (.error (.err e), st3) => (.error (.err e), st3))
      ∧ ({ st with frames := st.frames ++ [(⟨params.zip args, some S⟩ : Frame)] }).frames.get?
           st.frames.length = some (⟨params.zip args, some S⟩ : Frame)) := by
  constructor
  · intro hne
    simp only [applyCallee]
    rw [if_pos hne]
  · intro hlen hnd
    refine ⟨?_, frames_get_concat st.frames ⟨params.zip args, some S⟩⟩
    obtain ⟨fs, strs, objs, tr⟩ := st
    simp only [applyCallee]
    rw [if_neg (by simp [hlen])]
    have hip := initParams_bindings params args fs [] (some S) strs objs tr hnd
      hlen.symm (fun p _ => rfl)
    simp only [List.nil_append] at hip
    simp only [State.allocFrame]
    simp only [hip]

/-- Closed instance of `c8_call_semantics`: a 2-parameter function applied to
one argument raises the arity diagnostic; a closure whose captured scope is
the root frame (where `x ↦ 1`) returns 1 even though the state also holds a
second frame binding `x ↦ 2` — the call frame's parent is the captured scope,
not that other frame; and a function whose body falls through produces
Null. -/
theorem c8_call_semantics_witness :
    (applyCallee (evaluate 10) (.fnV 0 0 ["a", "b"] []) [.intV 1]
        ⟨[⟨[], none⟩], [], [], []⟩).1
      = .error (.err (.msg "error: function call expected 2 args, received 1"))
  ∧ (applyCallee (evaluate 10) (.fnV 0 0 [] [.returnStmt (.ident "x")]) []
        ⟨[⟨[("x", .intV 1)], none⟩, ⟨[("x", .intV 2)], some 0⟩], [], [], []⟩).1
      = .ok (.intV 1)
  ∧ (applyCallee (evaluate 10) (.fnV 0 0 ["y"] []) [.intV 5]
        ⟨[⟨[], none⟩], [], [], []⟩).1 = .ok .nullV := by
  refine ⟨?_, ?_, ?_⟩
  · have h := (c8_call_semantics (evaluate 10) 0 0 ["a", "b"] [] [.intV 1]
      ⟨[⟨[], none⟩], [], [], []⟩).1 (by decide)
    rw [h]
    rfl
  · have h := ((c8_call_semantics (evaluate 10) 0 0 [] [.returnStmt (.ident "x")] []
      ⟨[⟨[("x", .intV 1)], none⟩, ⟨[("x", .intV 2)], some 0⟩], [], [], []⟩).2
      rfl (by decide)).1
    rw [h]
    rfl
  · have h := ((c8_call_semantics (evaluate 10) 0 0 ["y"] [] [.intV 5]
      ⟨[⟨[], none⟩], [], [], []⟩).2 (by decide) (by decide)).1
    rw [h]
    rfl

/-! ## C1, C5, C6, C7 — evaluations at failing inputs -/

/-- C1: evaluating `"a" + "b"` (two string literals with buffers `[97]` and
`[98]`) allocates a new buffer, but its content is `[97, 0]` — the
concatenation loop of `evalBinaryExpr` reads the right operand at the
absolute index instead of an index relative to the left length, so every byte
of the right operand at an index below the left length is replaced by 0.  The
operand buffers themselves are unchanged, and the result is a fresh third
buffer, but it is not the byte concatenation `[97, 98]` the spec
prescribes. -/
theorem c1_string_concat_bug :
    ((evaluate 10 (.expr (.binary (.strLit 0) "+" (.strLit 1))) 0
        ⟨[⟨[], none⟩], [[97], [98]], [], []⟩).1 = .ok (.strV 2))
  ∧ ((evaluate 10 (.expr (.binary (.strLit 0) "+" (.strLit 1))) 0
        ⟨[⟨[], none⟩], [[97], [98]], [], []⟩).2.strings = [[97], [98], [97, 0]])
  ∧ strPlusBuffer [97] [98] = [97, 0]
  ∧ specConcat [97] [98] = [97, 98]
  ∧ [97, 0] ≠ [97, 98] := by
  exact ⟨rfl, rfl, rfl, rfl, by decide⟩

/-- C5: `1 % 0` does not raise the "division by zero" diagnostic — the
unguarded `lhs.value % rhs.value` on bigints raises the host `RangeError`
instead — and `1.0 % 0.0` raises nothing at all, evaluating to the Float
`NaN`; meanwhile `/` by zero is guarded and does raise the diagnostic for
both Integers and Floats. -/
theorem c5_modulo_zero_behaviour :
    ((evaluate 10 (.expr (.binary (.intLit 1) "%" (.intLit 0))) 0
        ⟨[⟨[], none⟩], [], [], []⟩).1 = .error (.err (.hostRangeError "Division by zero")))
  ∧ ((evaluate 10 (.expr (.binary (.floatLit 1) "%" (.floatLit 0))) 0
        ⟨[⟨[], none⟩], [], [], []⟩).1 = .ok (.floatV .nan))
  ∧ ((evaluate 10 (.expr (.binary (.intLit 1) "/" (.intLit 0))) 0
        ⟨[⟨[], none⟩], [], [], []⟩).1 = .error (.err (.msg "error: division by zero not allowed")))
  ∧ ((evaluate 10 (.expr (.binary (.floatLit 1) "/" (.floatLit 0))) 0
        ⟨[⟨[], none⟩], [], [], []⟩).1 = .error (.err (.msg "error: division by zero not allowed")))
  ∧ Err.hostRangeError "Division by zero" ≠ Err.msg "error: division by zero not allowed" := by
  exact ⟨rfl, rfl, rfl, rfl, by decide⟩

/-- C6: the member read `({}).toString` does not fail with the field-absent
diagnostic — the property store is a JS plain object, so the lookup finds the
inherited `Object.prototype.toString` (a host object outside the interpreter's
value model) and returns it; an absent key that is not an `Object.prototype`
property (here `foo`) does raise the diagnostic. -/
theorem c6_prototype_member_leak :
    ((evaluate 10 (.expr (.member (.objectLit []) (.ident "toString"))) 0
        ⟨[⟨[], none⟩], [], [], []⟩).1 = .ok (.protoArtifact "toString"))
  ∧ ((evaluate 10 (.expr (.member (.objectLit []) (.ident "foo"))) 0
        ⟨[⟨[], none⟩], [], [], []⟩).1
      = .error (.err (.msg "error: field foo is not present on calling object")))
  ∧ jsObjGet [] "toString" = some (.protoArtifact "toString")
  ∧ jsObjGet [] "foo" = none := by
  exact ⟨rfl, rfl, rfl, rfl⟩

/-- C7: in the program
`var f = fn () { return "hi"; }; var a = f(); a[0] = 72; var b = f();`
the string literal `"hi"` is one AST node whose buffer sits at heap address 0;
both calls return a String value holding that same address (the evaluator
wraps the literal node's own buffer, no copy), so after the subscript
assignment through `a` the node's buffer reads `[72, 105]` ("Hi") — the
mutation is visible through the later evaluation `b` of the same literal, and
the AST node's buffer itself has been mutated. -/
theorem c7_string_literal_aliasing :
    ((interpret 20
        [ .varStmt "f" (.fnLit 0 [] [.returnStmt (.strLit 0)])
        , .varStmt "a" (.call (.ident "f") [])
        , .exprStmt (.assign (.subscript (.ident "a") (.intLit 0)) "=" (.intLit 72))
        , .varStmt "b" (.call (.ident "f") []) ] 0
        ⟨[⟨[], none⟩], [[104, 105]], [], []⟩).2.strings = [[72, 105]])
  ∧ lookupVar (interpret 20
        [ .varStmt "f" (.fnLit 0 [] [.returnStmt (.strLit 0)])
        , .varStmt "a" (.call (.ident "f") [])
        , .exprStmt (.assign (.subscript (.ident "a") (.intLit 0)) "=" (.intLit 72))
        , .varStmt "b" (.call (.ident "f") []) ] 0
        ⟨[⟨[], none⟩], [[104, 105]], [], []⟩).2 0 "a" = .ok (.strV 0)
  ∧ lookupVar (interpret 20
        [ .varStmt "f" (.fnLit 0 [] [.returnStmt (.strLit 0)])
        , .varStmt "a" (.call (.ident "f") [])
        , .exprStmt (.assign (.subscript (.ident "a") (.intLit 0)) "=" (.intLit 72))
        , .varStmt "b" (.call (.ident "f") []) ] 0
        ⟨[⟨[], none⟩], [[104, 105]], [], []⟩).2 0 "b" = .ok (.strV 0)
  ∧ [72, 105] ≠ [104, 105] := by
  exact ⟨rfl, rfl, rfl, by decide⟩
